import Mathlib

/-!
Verification of the client-side product catalog store
(`src/contexts/ProductContext.tsx`).

The store is embedded shallowly: the React state triple
(products, loading, error) together with the single `localStorage`
slot keyed `'products'` becomes an explicit `CatalogState`, and every
operation of the context becomes a pure state transformer.  Calls to
the clock (`Date.now()`, `new Date().toISOString()`) are passed in as
parameters, since the source reads the ambient clock.  JavaScript
numbers are modelled as rationals; `NaN` (the result of `parseFloat`
on a non-numeric string) is modelled by `Option.none`.
-/

namespace ProductContext

/-- A JavaScript number or `NaN`: `parseFloat` can fail, and a failed
parse propagates through the `* 75` multiplication. -/
abbrev JSNum := Option ℚ

/-- The `price` field of a raw seed record: the datasets hold either a
textual price such as `"$10.00"` or a plain number
(`typeof product.price === 'string'` test at line 18 of the source). -/
inductive RawPrice where
  | str (s : String)
  | num (q : ℚ)
deriving DecidableEq

/-- A raw seed record, as consumed by `convertToINR` /
`convertToProduct`: the identifier is numeric in the seed data (the
source coerces it with `String(product.id)`), and `sizes`, `media`,
`createdAt`, `updatedAt` may be absent (`undefined`), which `Option`
models. -/
structure RawProduct where
  id : Nat
  category : String
  price : RawPrice
  inStock : Bool
  sizes : Option (List String)
  media : Option (List String)
  createdAt : Option String
  updatedAt : Option String
deriving DecidableEq

/-- The `Product` record of the store.  `price` is a JavaScript
number (`Option ℚ`, `none` = `NaN`); `sizes`, `media`, `createdAt`,
`updatedAt` are `Option`s because the TypeScript type admits absent
fields, which the operations default with `||`. -/
structure Product where
  id : String
  category : String
  price : JSNum
  inStock : Bool
  sizes : Option (List String)
  media : Option (List String)
  createdAt : Option String
  updatedAt : Option String
deriving DecidableEq

/-- `product.price.replace(/[^0-9.-]+/g, '')` (source line 19): every
character that is not a digit, a dot or a minus sign is deleted. -/
def stripNonNumeric (s : String) : String :=
  ⟨s.data.filter fun c => c.isDigit || c == '.' || c == '-'⟩

/-- Numeric value of a digit string read left to right. -/
def digitsToNat (ds : List Char) : Nat :=
  ds.foldl (fun a c => 10 * a + (c.toNat - 48)) 0

/-- JavaScript `parseFloat` on the character classes that survive
`stripNonNumeric` (digits, `.`, `-`): an optional leading sign, then
an integer part, then an optional fractional part; parsing stops at
the first character that does not fit, and the result is `NaN`
(`none`) when no digit was consumed. -/
def parseFloatJS (s : String) : JSNum :=
  let step1 : Bool × List Char :=
    match s.data with
    | '-' :: rest => (true, rest)
    | '+' :: rest => (false, rest)
    | cs => (false, cs)
  let neg := step1.1
  let intDs := step1.2.takeWhile Char.isDigit
  let afterInt := step1.2.dropWhile Char.isDigit
  let fracDs : List Char :=
    match afterInt with
    | '.' :: rest => rest.takeWhile Char.isDigit
    | _ => []
  if intDs.isEmpty && fracDs.isEmpty then none
  else
    let mag : ℚ :=
      (digitsToNat intDs : ℚ) + (digitsToNat fracDs : ℚ) / (10 : ℚ) ^ fracDs.length
    some (if neg then -mag else mag)

/-- The numeric value of a raw record's price field before the
currency factor: a textual price is stripped and parsed, a numeric
price is used as is. -/
def sourcePriceNum : RawPrice → JSNum
  | .str s => parseFloatJS (stripNonNumeric s)
  | .num q => some q

/-- `convertToProduct` (source lines 6–12): coerces the identifier to
a string, defaults `media` to the empty sequence and both timestamps
to "now".  In the source the raw price passes through the spread
unchanged and is immediately overwritten by `convertToINR`; the typed
embedding therefore receives the final price explicitly. -/
def convertToProduct (nowIso : String) (product : RawProduct) (price : JSNum) :
    Product :=
  { id := toString product.id
    category := product.category
    price := price
    inStock := product.inStock
    sizes := product.sizes
    media := some (product.media.getD [])
    createdAt := some (product.createdAt.getD nowIso)
    updatedAt := some (product.updatedAt.getD nowIso) }

/-- `convertToINR` (source lines 15–22): converts each record via
`convertToProduct`, replacing the price by the parsed source price
times 75 (`parseFloat(...) * 75` for strings, `price * 75`
otherwise). -/
def convertToINR (nowIso : String) (products : List RawProduct) : List Product :=
  products.map fun product =>
    convertToProduct nowIso product
      (match product.price with
        | .str s => (parseFloatJS (stripNonNumeric s)).map (fun x => x * 75)
        | .num q => some (q * 75))

/-- `initialProducts` (source lines 25–30): the concatenation of the
four converted seed datasets.  The datasets themselves live in
`../data/products`, outside this module, so they are parameters. -/
def initialProducts (nowIso : String)
    (mensProducts womensProducts kidsProducts watchesProducts : List RawProduct) :
    List Product :=
  convertToINR nowIso mensProducts ++ convertToINR nowIso womensProducts ++
    convertToINR nowIso kidsProducts ++ convertToINR nowIso watchesProducts

/-- The `localStorage` slot keyed `'products'`: absent
(`getItem` returns `null`), holding a parseable serialization of a
product list, or holding data on which `JSON.parse` throws. -/
inductive StorageSlot where
  | empty
  | valid (ps : List Product)
  | corrupt
deriving DecidableEq

/-- The observable state of one `ProductProvider` instance: the live
list, the loading flag, the error message and the persisted slot. -/
structure CatalogState where
  products : List Product
  loading : Bool
  error : Option String
  storage : StorageSlot
deriving DecidableEq

/-- `saveProductsToStorage` (source lines 53–55): overwrites the
single persisted slot with the serialization of the given list. -/
def saveProductsToStorage (products : List Product) (st : CatalogState) :
    CatalogState :=
  { st with storage := .valid products }

/-- The fixed default size set of `addProduct` (source line 62). -/
def defaultSizes : List String := ["S", "M", "L", "XL"]

/-- `addProduct` (source lines 57–70): builds the new record (fresh
identifier `String(Date.now())`, `inStock` forced true, `sizes` and
`media` defaulted with `||`, both timestamps stamped to now), appends
it to the live list and persists the full list.  `now` is the
millisecond clock reading, `nowIso` its ISO rendering. -/
def addProduct (now : Nat) (nowIso : String) (product : Product)
    (st : CatalogState) : CatalogState :=
  let newProduct : Product :=
    { product with
        id := toString now
        inStock := true
        sizes := some (product.sizes.getD defaultSizes)
        media := some (product.media.getD [])
        createdAt := some nowIso
        updatedAt := some nowIso }
  let updatedProducts := st.products ++ [newProduct]
  saveProductsToStorage updatedProducts { st with products := updatedProducts }

/-- `updateProduct` (source lines 72–81): maps over the live list,
replacing every entry whose identifier equals the input's by the
input record with `updatedAt` stamped to now, and persists the full
list. -/
def updateProduct (nowIso : String) (updatedProduct : Product)
    (st : CatalogState) : CatalogState :=
  let updatedProducts := st.products.map fun product =>
    if product.id = updatedProduct.id then
      { updatedProduct with updatedAt := some nowIso }
    else product
  saveProductsToStorage updatedProducts { st with products := updatedProducts }

/-- `deleteProduct` (source lines 83–87): filters out every entry
whose identifier equals the argument and persists the full list. -/
def deleteProduct (productId : String) (st : CatalogState) : CatalogState :=
  let updatedProducts := st.products.filter fun product => product.id ≠ productId
  saveProductsToStorage updatedProducts { st with products := updatedProducts }

/-- `getProductsByCategory` (source lines 89–93): a pure read — it
returns a list and leaves the state untouched.  The sentinel `'All'`
passes every product, any other argument keeps exactly the products
whose category field equals it (`===`). -/
def getProductsByCategory (category : String) (st : CatalogState) :
    List Product :=
  st.products.filter fun product =>
    if category = "All" then true else product.category = category

/-- The error message set by `refreshProducts` on a read/parse
failure (source line 106). -/
def refreshErrorMsg : String := "Failed to refresh products"

/-- `refreshProducts` (source lines 95–111): sets the loading flag,
clears the error, re-reads the persisted slot and adopts it if
present, otherwise resets to the seed list; a parse failure is caught
and recorded as an error message, leaving the list unchanged; the
`finally` block clears the loading flag in every outcome.  `seed` is
the `initialProducts` list computed at module load. -/
def refreshProducts (seed : List Product) (st : CatalogState) : CatalogState :=
  let entered := { st with loading := true, error := none }
  let afterRead :=
    match entered.storage with
    | .valid ps => { entered with products := ps }
    | .empty => { entered with products := seed }
    | .corrupt => { entered with error := some refreshErrorMsg }
  { afterRead with loading := false }

/-- `useProducts` (source lines 131–137): outside an active provider
the context is `undefined` (`none`) and the hook throws; inside, it
returns the context value. -/
def useProducts {α : Type} (context : Option α) : Except String α :=
  match context with
  | none => .error "useProducts must be used within a ProductProvider"
  | some c => .ok c

/-! ### Concrete sample data used by witnesses -/

/-- A raw seed record used to instantiate the seeding claims. -/
def sampleRaw (price : RawPrice) : RawProduct :=
  { id := 1
    category := "Watches"
    price := price
    inStock := true
    sizes := none
    media := none
    createdAt := none
    updatedAt := none }

/-- A concrete product used by witnesses. -/
def sampleProduct : Product :=
  { id := "1"
    category := "Watches"
    price := some 750
    inStock := true
    sizes := some ["S"]
    media := some []
    createdAt := some "t0"
    updatedAt := some "t0" }

/-- A second concrete product, distinct identifier and category. -/
def sampleProduct2 : Product :=
  { sampleProduct with id := "2", category := "Men" }

/-- A concrete store state holding the two sample products. -/
def sampleState : CatalogState :=
  { products := [sampleProduct, sampleProduct2]
    loading := false
    error := none
    storage := .empty }

/-! ### Helper lemmas -/

/-- Price column of `convertToINR`: each output price is the parsed
source price times 75. -/
theorem convertToINR_map_price (nowIso : String) (rs : List RawProduct) :
    (convertToINR nowIso rs).map Product.price
      = rs.map fun r => (sourcePriceNum r.price).map fun q => q * 75 := by
  unfold convertToINR
  rw [List.map_map]
  refine List.map_congr_left fun r _ => ?_
  cases hr : r.price <;> simp [convertToProduct, sourcePriceNum, hr]

/-- `updateProduct` preserves the length of the live list. -/
theorem updateProduct_products_length (nowIso : String) (u : Product)
    (st : CatalogState) :
    (updateProduct nowIso u st).products.length = st.products.length := by
  simp [updateProduct, saveProductsToStorage]

/-! ### Claim theorems -/

/-- C1: for every raw seed record, the seed conversion yields a
product whose price is the source price multiplied by 75; a textual
source price is stripped of non-numeric formatting characters before
parsing, so a record with price `"$10.00"` or numeric `10` is stored
with price `750`, for each of the four source category sets (the four
datasets entering `initialProducts`). -/
theorem seed_conversion_scales_price_by_75 :
    (∀ (nowIso : String) (ms ws ks wts : List RawProduct),
      (initialProducts nowIso ms ws ks wts).map Product.price
        = (ms ++ ws ++ ks ++ wts).map fun r =>
            (sourcePriceNum r.price).map fun q => q * 75)
    ∧ sourcePriceNum (RawPrice.str "$10.00") = some 10
    ∧ sourcePriceNum (RawPrice.num 10) = some 10
    ∧ (convertToINR "now"
        [sampleRaw (RawPrice.str "$10.00"), sampleRaw (RawPrice.num 10)]).map
          Product.price = [some 750, some 750] := by
  refine ⟨fun nowIso ms ws ks wts => ?_, ?_, rfl, ?_⟩
  · simp only [initialProducts, List.map_append, convertToINR_map_price]
  · simp +decide [sourcePriceNum, parseFloatJS, stripNonNumeric, digitsToNat]
  · simp +decide [convertToINR, convertToProduct, sampleRaw, parseFloatJS,
      stripNonNumeric, digitsToNat]
    norm_num

/-- C2: `addProduct` appends exactly one new entry at the end of the
live list; its identifier is the millisecond timestamp coerced to a
string (the input's identifier is ignored), its stock flag is forced
true, its sizes default to `["S","M","L","XL"]` when absent, its
media defaults to empty when absent, both timestamps are stamped to
now, and the full updated list is persisted. -/
theorem addProduct_appends_defaults_and_persists (now : Nat) (nowIso : String)
    (product : Product) (st : CatalogState) :
    ∃ q : Product,
      (addProduct now nowIso product st).products = st.products ++ [q]
      ∧ (addProduct now nowIso product st).products.length
          = st.products.length + 1
      ∧ q.id = toString now
      ∧ q.inStock = true
      ∧ q.sizes = some (product.sizes.getD defaultSizes)
      ∧ q.media = some (product.media.getD [])
      ∧ q.createdAt = some nowIso
      ∧ q.updatedAt = some nowIso
      ∧ q.category = product.category
      ∧ q.price = product.price
      ∧ (addProduct now nowIso product st).storage
          = StorageSlot.valid ((addProduct now nowIso product st).products) := by
  refine ⟨_, rfl, ?_, rfl, rfl, rfl, rfl, rfl, rfl, rfl, rfl, rfl⟩
  simp [addProduct, saveProductsToStorage]

/-- C3: when the input's identifier matches an existing entry,
`updateProduct` replaces that entry wholesale by the input record with
`updatedAt` stamped to now — in particular the stored `createdAt` is
exactly the input's `createdAt`, so it survives only if the input
carries it — while every non-matching entry and the list length are
unchanged. -/
theorem updateProduct_replaces_wholesale (nowIso : String) (u p : Product)
    (st : CatalogState) (i : Nat)
    (hp : st.products[i]? = some p) (hmatch : p.id = u.id) :
    (updateProduct nowIso u st).products[i]?
        = some { u with updatedAt := some nowIso }
    ∧ ({ u with updatedAt := some nowIso } : Product).createdAt = u.createdAt
    ∧ (updateProduct nowIso u st).products.length = st.products.length
    ∧ (∀ (j : Nat) (q : Product), st.products[j]? = some q → q.id ≠ u.id →
        (updateProduct nowIso u st).products[j]? = some q) := by
  refine ⟨?_, rfl, updateProduct_products_length nowIso u st, ?_⟩
  · simp [updateProduct, saveProductsToStorage, List.getElem?_map, hp, hmatch]
  · intro j q hq hne
    simp [updateProduct, saveProductsToStorage, List.getElem?_map, hq, hne]

/-- Witness for C3 at a concrete matching state. -/
theorem updateProduct_replaces_wholesale_witness :
    (updateProduct "t1" sampleProduct sampleState).products[0]?
        = some { sampleProduct with updatedAt := some "t1" }
    ∧ ({ sampleProduct with updatedAt := some "t1" } : Product).createdAt
        = sampleProduct.createdAt
    ∧ (updateProduct "t1" sampleProduct sampleState).products.length
        = sampleState.products.length
    ∧ (∀ (j : Nat) (q : Product), sampleState.products[j]? = some q →
        q.id ≠ sampleProduct.id →
        (updateProduct "t1" sampleProduct sampleState).products[j]? = some q) :=
  updateProduct_replaces_wholesale "t1" sampleProduct sampleProduct sampleState 0
    rfl rfl

/-- C4: when the input's identifier matches no existing entry,
`updateProduct` leaves the live list unchanged (order included) and
the call succeeds without error — the error and loading fields are
untouched. -/
theorem updateProduct_nonmatching_is_noop (nowIso : String) (u : Product)
    (st : CatalogState) (h : ∀ p ∈ st.products, p.id ≠ u.id) :
    (updateProduct nowIso u st).products = st.products
    ∧ (updateProduct nowIso u st).error = st.error
    ∧ (updateProduct nowIso u st).loading = st.loading := by
  refine ⟨?_, rfl, rfl⟩
  simp only [updateProduct, saveProductsToStorage]
  have h1 : st.products.map
        (fun product =>
          if product.id = u.id then { u with updatedAt := some nowIso }
          else product)
      = st.products.map fun product => product :=
    List.map_congr_left fun p hp => if_neg (h p hp)
  rw [h1, List.map_id']

/-- Witness for C4 at a concrete non-matching state. -/
theorem updateProduct_nonmatching_is_noop_witness :
    (updateProduct "t1" { sampleProduct with id := "99" } sampleState).products
        = sampleState.products
    ∧ (updateProduct "t1" { sampleProduct with id := "99" } sampleState).error
        = sampleState.error
    ∧ (updateProduct "t1" { sampleProduct with id := "99" } sampleState).loading
        = sampleState.loading :=
  updateProduct_nonmatching_is_noop "t1" { sampleProduct with id := "99" }
    sampleState (by decide)

/-- Removing the unique entry carrying a given identifier shortens a
list with pairwise-distinct identifiers by exactly one. -/
theorem length_filter_ne_of_unique_id (pid : String) :
    ∀ l : List Product, (l.map Product.id).Nodup →
      ∀ p ∈ l, p.id = pid →
        l.length = (l.filter fun q => q.id ≠ pid).length + 1 := by
  intro l
  induction l with
  | nil => intro _ p hp; cases hp
  | cons a t ih =>
    intro hn p hp hid
    simp only [List.map_cons, List.nodup_cons] at hn
    rcases List.mem_cons.mp hp with rfl | hpt
    · have ht : t.filter (fun q => q.id ≠ pid) = t :=
        List.filter_eq_self.mpr fun q hq => by
          simp only [ne_eq, decide_eq_true_eq]
          intro hqid
          exact hn.1 (hid ▸ hqid ▸ List.mem_map_of_mem Product.id hq)
      simp only [ne_eq, decide_not] at ht
      simp [List.filter_cons, hid, ht]
    · have hane : a.id ≠ pid := fun ha =>
        hn.1 (ha ▸ hid ▸ List.mem_map_of_mem Product.id hpt)
      have hrec := ih hn.2 p hpt hid
      simp only [ne_eq, decide_not] at hrec
      simp [List.filter_cons, hane, hrec]

/-- C5: `deleteProduct` removes exactly the entries whose identifier
equals the argument — membership in the result is membership before
plus a differing identifier; when no identifier matches the list is
unchanged, and when the identifiers are pairwise distinct (the
catalog's uniqueness invariant) and a match is present the length
drops by exactly one. -/
theorem deleteProduct_removes_exactly_matching (productId : String)
    (st : CatalogState) :
    (∀ p : Product, p ∈ (deleteProduct productId st).products
        ↔ p ∈ st.products ∧ p.id ≠ productId)
    ∧ ((∀ p ∈ st.products, p.id ≠ productId) →
        (deleteProduct productId st).products = st.products)
    ∧ ((st.products.map Product.id).Nodup →
        ∀ p ∈ st.products, p.id = productId →
          st.products.length = (deleteProduct productId st).products.length + 1) := by
  refine ⟨fun p => ?_, fun h => ?_, fun hn p hp hid => ?_⟩
  · simp [deleteProduct, saveProductsToStorage, List.mem_filter]
  · simp only [deleteProduct, saveProductsToStorage]
    exact List.filter_eq_self.mpr fun p hp => by simpa using h p hp
  · simpa [deleteProduct, saveProductsToStorage] using
      length_filter_ne_of_unique_id productId st.products hn p hp hid

/-- Witness for C5: deleting the present identifier `"1"` from the
two-product sample state shortens the list by one. -/
theorem deleteProduct_removes_exactly_matching_witness :
    sampleState.products.length
      = (deleteProduct "1" sampleState).products.length + 1 :=
  (deleteProduct_removes_exactly_matching "1" sampleState).2.2 (by decide)
    sampleProduct (by simp [sampleState]) rfl

/-- C6: `getProductsByCategory` is a pure read (it returns a list and
produces no successor state): the sentinel `"All"` returns the whole
live list, and any other argument returns exactly the products whose
category equals it under exact, case-sensitive string equality. -/
theorem getProductsByCategory_pure_filter (category : String)
    (st : CatalogState) :
    (category = "All" → getProductsByCategory category st = st.products)
    ∧ (category ≠ "All" →
        ∀ p : Product, p ∈ getProductsByCategory category st
          ↔ p ∈ st.products ∧ p.category = category) := by
  constructor
  · intro h
    subst h
    simp [getProductsByCategory]
  · intro h p
    simp [getProductsByCategory, List.mem_filter, h]

/-- Witness for C6 at the sentinel and at a concrete category. -/
theorem getProductsByCategory_pure_filter_witness :
    getProductsByCategory "All" sampleState = sampleState.products
    ∧ (sampleProduct ∈ getProductsByCategory "Watches" sampleState
        ↔ sampleProduct ∈ sampleState.products
          ∧ sampleProduct.category = "Watches") :=
  ⟨(getProductsByCategory_pure_filter "All" sampleState).1 rfl,
   (getProductsByCategory_pure_filter "Watches" sampleState).2 (by decide)
     sampleProduct⟩

/-- A state whose persisted slot holds unparseable data and which
carries a stale error message. -/
def corruptState : CatalogState :=
  { sampleState with storage := .corrupt, error := some "old" }

/-- C7: when the persisted slot holds unparseable data,
`refreshProducts` leaves the live list at its last known good value
and records the fixed non-empty error message; the operation is a
total function (it resolves without throwing), and in every outcome
the loading flag is false afterwards. -/
theorem refreshProducts_corrupt_fallback (seed : List Product)
    (st : CatalogState) :
    (st.storage = StorageSlot.corrupt →
      (refreshProducts seed st).products = st.products
      ∧ (refreshProducts seed st).error = some refreshErrorMsg
      ∧ refreshErrorMsg ≠ "")
    ∧ (refreshProducts seed st).loading = false := by
  constructor
  · intro h
    refine ⟨?_, ?_, by decide⟩ <;> simp [refreshProducts, h]
  · cases h : st.storage <;> simp [refreshProducts, h]

/-- Witness for C7 at a concrete corrupt-slot state. -/
theorem refreshProducts_corrupt_fallback_witness :
    (refreshProducts [] corruptState).products = corruptState.products
    ∧ (refreshProducts [] corruptState).error = some refreshErrorMsg
    ∧ refreshErrorMsg ≠ "" :=
  (refreshProducts_corrupt_fallback [] corruptState).1 rfl

/-- C8: after each mutating operation the persisted slot holds
exactly the serialization of the entire updated live list — every
mutation overwrites the single slot wholesale through
`saveProductsToStorage`, with no partial write. -/
theorem mutations_persist_entire_list (now : Nat) (nowIso : String)
    (p u : Product) (productId : String) (st : CatalogState) :
    (addProduct now nowIso p st).storage
        = StorageSlot.valid ((addProduct now nowIso p st).products)
    ∧ (updateProduct nowIso u st).storage
        = StorageSlot.valid ((updateProduct nowIso u st).products)
    ∧ (deleteProduct productId st).storage
        = StorageSlot.valid ((deleteProduct productId st).products) :=
  ⟨rfl, rfl, rfl⟩

/-- C9: `useProducts` called outside an active provider scope (the
context is `undefined`) fails fast with the descriptive message and
never returns a value; inside a provider it returns the context. -/
theorem useProducts_fails_fast_outside_provider :
    useProducts (none : Option CatalogState)
        = Except.error "useProducts must be used within a ProductProvider"
    ∧ "useProducts must be used within a ProductProvider" ≠ ""
    ∧ (∀ st : CatalogState,
        useProducts (none : Option CatalogState) ≠ Except.ok st)
    ∧ (∀ st : CatalogState, useProducts (some st) = Except.ok st) := by
  refine ⟨rfl, by decide, fun st => ?_, fun st => rfl⟩
  simp [useProducts]

/-- A state carrying a stale error message over an empty persisted
slot. -/
def staleErrorState : CatalogState :=
  { sampleState with error := some "old" }

/-- C10: `refreshProducts` clears the error field, so after every
successful refresh — adopting a parseable snapshot or falling back to
the seed list on an empty slot — the error field is `none`, whatever
error a previous refresh had recorded. -/
theorem refreshProducts_success_clears_error (seed : List Product)
    (st : CatalogState) :
    (st.storage ≠ StorageSlot.corrupt → (refreshProducts seed st).error = none)
    ∧ (∀ ps : List Product, st.storage = StorageSlot.valid ps →
        (refreshProducts seed st).error = none
        ∧ (refreshProducts seed st).products = ps)
    ∧ (st.storage = StorageSlot.empty →
        (refreshProducts seed st).error = none
        ∧ (refreshProducts seed st).products = seed) := by
  refine ⟨fun h => ?_, fun ps h => ?_, fun h => ?_⟩
  · cases hs : st.storage with
    | empty => simp [refreshProducts, hs]
    | valid ps => simp [refreshProducts, hs]
    | corrupt => exact absurd hs h
  · simp [refreshProducts, h]
  · simp [refreshProducts, h]

/-- Witness for C10: refreshing over an empty slot clears a stale
error message and resets to the seed list. -/
theorem refreshProducts_success_clears_error_witness :
    (refreshProducts [] staleErrorState).error = none
    ∧ (refreshProducts [] staleErrorState).products = [] :=
  (refreshProducts_success_clears_error [] staleErrorState).2.2 rfl

end ProductContext
